import Mathlib

/-!
Verification development for the lumberjack-axe log viewer.

This file shallowly embeds the core of the application in Lean 4:

* `src/worker.rs` — the worker bridge (`WorkerRequest`, `worker_loop`);
* `src/aws.rs` — the time / limit computations of `fetch_recent_logs`,
  `to_millis` and `list_log_groups`;
* `src/app/mod.rs` — the `App` state machine (`start_fetch_logs`,
  `start_load_log_groups` and the per-frame `update`, split here into its
  poll and tail phases);
* `src/app/status_bar.rs` — `compute_status` and the auth-expiry hint.

The repository holds two snapshots of the application component
(`src/app.rs` and the modular `src/app/`); following the specification,
the modular split is treated as the authoritative one.

Modelling conventions: machine integers become `Nat`/`Int` with explicit
clamping where the source clamps; `Instant`s and `Duration`s on the app
side are `Nat` milliseconds; the `SystemTime` in `fetch_recent_logs` is an
`Int` count of nanoseconds relative to the Unix epoch; Rust byte strings in
the status bar are `List Nat` of UTF-8 bytes so that the byte-slice
`&err[..58]` (which panics off a char boundary) can be modelled by an
`Option` result; mpsc channels are modelled by a channel identifier
(`Nat`) on the worker side and by an optional receiver-state slot
(`Option (RxState _)`) on the app side.
-/

namespace Lumberjack

/-- A single log entry returned from CloudWatch Logs (`LogEntry`,
src/aws.rs). -/
structure LogEntry where
  timestampMillis : Int
  message : String
  logStreamName : Option String
deriving DecidableEq, Repr

/-- The error type of src/aws.rs (`AwsLogError`). The opaque
`CloudWatchLogsError` source is modelled by its display string. -/
inductive AwsLogError where
  | cloudWatch (logGroup : String) (source : String)
  | listLogGroupsErr (region : String) (message : String)
deriving DecidableEq, Repr

/-- Display rendering of `AwsLogError` per its `thiserror` attributes
(the `{log_group:?}` debug formatting is modelled as plain quoting). -/
def formatAwsLogError : AwsLogError → String
  | .cloudWatch logGroup source =>
      "CloudWatch Logs request failed for log group \"" ++ logGroup ++ "\": " ++ source
  | .listLogGroupsErr region message =>
      "failed to list CloudWatch log groups in region " ++ region ++ ": " ++ message

/-- State of the receiving half of a reply channel as observed by
`try_recv`: still empty, a value ready, or disconnected. -/
inductive RxState (α : Type) where
  | empty
  | ready (v : α)
  | disconnected
deriving DecidableEq, Repr

/-- The request type of the worker bridge (`WorkerRequest`, src/worker.rs).
The `respond_to` sender is modelled by a channel identifier; `lookback` is
in milliseconds. -/
inductive WorkerRequest where
  | fetchRecentLogs (profile region : Option String) (logGroup : String)
      (filterPattern : Option String) (lookbackMillis : Nat) (limit : Int)
      (respondTo : Nat)
  | listLogGroups (profile region : Option String) (limit : Int) (respondTo : Nat)
deriving DecidableEq, Repr

/-- A reply sent by the worker on a request's reply channel. -/
inductive WorkerReply where
  | fetchResult (r : Except AwsLogError (List LogEntry))
  | groupsResult (r : Except AwsLogError (List String))

/-- The remote log service as seen by the worker loop: the two async
operations of src/aws.rs, abstracted as pure fallible functions. -/
structure Service where
  fetchRecentLogs : Option String → Option String → String → Option String →
    Nat → Int → Except AwsLogError (List LogEntry)
  listLogGroups : Option String → Option String → Int → Except AwsLogError (List String)

/-- The worker dispatch loop (`worker_loop`, src/worker.rs lines 64-102):
requests are received in order; each is dispatched to the matching service
operation; the result is sent on the request's reply channel, the send
being silently ignored when the receiver is gone (`alive ch = false`). -/
def workerLoop (svc : Service) (alive : Nat → Bool) : List WorkerRequest → List (Nat × WorkerReply)
  | [] => []
  | WorkerRequest.fetchRecentLogs p r g f lb lim ch :: rest =>
      let result := svc.fetchRecentLogs p r g f lb lim
      if alive ch then (ch, WorkerReply.fetchResult result) :: workerLoop svc alive rest
      else workerLoop svc alive rest
  | WorkerRequest.listLogGroups p r lim ch :: rest =>
      let result := svc.listLogGroups p r lim
      if alive ch then (ch, WorkerReply.groupsResult result) :: workerLoop svc alive rest
      else workerLoop svc alive rest

/-! ### src/aws.rs computations -/

/-- The value of `i64::MAX`. -/
def I64MAX : Int := 2 ^ 63 - 1

/-- `to_millis` (src/aws.rs lines 117-122): a `SystemTime`, modelled as
nanoseconds relative to the Unix epoch, becomes a nonnegative millisecond
count — `duration_since(UNIX_EPOCH)` fails for pre-epoch times giving 0,
and `as_millis` is truncating division saturated at `i64::MAX`. -/
def toMillis (tNanos : Int) : Int :=
  if 0 ≤ tNanos then min ((tNanos.toNat / 1000000 : Nat) : Int) I64MAX else 0

/-- The start-time computation of `fetch_recent_logs`
(src/aws.rs lines 74-78): `now.checked_sub(lookback).unwrap_or(UNIX_EPOCH)`
followed by `to_millis`. In this unbounded model the checked subtraction
always succeeds; its `None`-fallback (the epoch) maps to 0 exactly as a
pre-epoch difference does. -/
def fetchStartTimeMillis (nowNanos : Int) (lookbackNanos : Nat) : Int :=
  toMillis (nowNanos - lookbackNanos)

/-- The page-size cap of `list_log_groups` (src/aws.rs lines 131-136): a
positive caller limit is capped at 50 and sent; a zero or negative limit
sets no page-size cap at all. -/
def listLogGroupsLimitCap (limit : Int) : Option Int :=
  if 0 < limit then some (min limit 50) else none

/-! ### src/app/mod.rs — the application state machine -/

/-- `ActiveView` (src/app/state.rs). -/
inductive ActiveView where
  | logs
deriving DecidableEq, Repr

/-- `Theme` (src/app/state.rs). -/
inductive Theme where
  | light
  | dark
  | retroGreen
deriving DecidableEq, Repr

/-- `LogsViewState` (src/app/state.rs). Instants are `Nat` milliseconds. -/
structure LogsViewState where
  profile : String
  region : String
  logGroup : String
  filterText : String
  availableGroups : List String
  selectedGroupIndex : Option Nat
  tailMode : Bool
  showLocalTime : Bool
  entries : List LogEntry
  tailIntervalSecs : Nat
  lastTailInstant : Option Nat
deriving DecidableEq, Repr

/-- `LogsViewState::new_default` (src/app/state.rs lines 36-50). -/
def LogsViewState.newDefault : LogsViewState where
  profile := "form"
  region := "eu-west-1"
  logGroup := ""
  filterText := ""
  availableGroups := []
  selectedGroupIndex := none
  tailMode := false
  showLocalTime := false
  entries := []
  tailIntervalSecs := 5
  lastTailInstant := none

/-- Decidable equality for `Except`, needed to derive it for `App`. -/
def exceptDecEq {ε α : Type} [DecidableEq ε] [DecidableEq α] : DecidableEq (Except ε α)
  | Except.ok a, Except.ok b =>
      if h : a = b then isTrue (by rw [h]) else isFalse (by intro hh; cases hh; exact h rfl)
  | Except.ok _, Except.error _ => isFalse (by intro h; cases h)
  | Except.error _, Except.ok _ => isFalse (by intro h; cases h)
  | Except.error a, Except.error b =>
      if h : a = b then isTrue (by rw [h]) else isFalse (by intro hh; cases hh; exact h rfl)

instance {ε α : Type} [DecidableEq ε] [DecidableEq α] : DecidableEq (Except ε α) :=
  exceptDecEq

/-- The `App` struct (src/app/mod.rs lines 14-25). The two receiver slots
hold the observable state of the reply channel; the worker handle is
modelled by the list of requests each operation emits. -/
structure App where
  view : ActiveView
  logsView : LogsViewState
  shouldClose : Bool
  lastError : Option String
  isFetching : Bool
  fetchRx : Option (RxState (Except AwsLogError (List LogEntry)))
  groupsRx : Option (RxState (Except AwsLogError (List String)))
  theme : Theme
  isLoadingGroups : Bool
deriving DecidableEq, Repr

/-- `str::trim` as used by the app code: drop whitespace from both ends.
Defined structurally on the character list so it evaluates in the kernel
(Rust trims the full Unicode White_Space class; the claims only involve
ordinary whitespace, which `Char.isWhitespace` covers). -/
def rustTrim (s : String) : String :=
  String.mk (((s.data.dropWhile Char.isWhitespace).reverse.dropWhile Char.isWhitespace).reverse)

/-- `App::new` (src/app/mod.rs lines 28-41). -/
def appNew : App where
  view := ActiveView.logs
  logsView := LogsViewState.newDefault
  shouldClose := false
  lastError := none
  isFetching := false
  fetchRx := none
  groupsRx := none
  theme := Theme.dark
  isLoadingGroups := false

/-- `App::start_fetch_logs` (src/app/mod.rs lines 43-88). `ch` is the
identifier of the freshly created mpsc channel; the returned list holds
the requests handed to `worker.send`. The guard on `is_fetching`, the
trim-and-validate of the log group name, the normalisation of empty
profile / region / filter to `None`, and the fixed `limit: 1_000` all
mirror the source. -/
def startFetchLogs (a : App) (lookbackMillis ch : Nat) : App × List WorkerRequest :=
  if a.isFetching then (a, [])
  else
    let logGroup := rustTrim a.logsView.logGroup
    if logGroup = "" then
      ({ a with lastError := some "Please select a log group." }, [])
    else
      let profile := a.logsView.profile
      let region := a.logsView.region
      let filter := a.logsView.filterText
      ({ a with
          logsView := { a.logsView with logGroup := logGroup }
          isFetching := true
          lastError := none
          fetchRx := some RxState.empty },
       [WorkerRequest.fetchRecentLogs
          (if rustTrim profile = "" then none else some profile)
          (if rustTrim region = "" then none else some region)
          logGroup
          (if rustTrim filter = "" then none else some filter)
          lookbackMillis 1000 ch])

/-- `App::start_load_log_groups` (src/app/mod.rs lines 90-118): without
any in-flight guard it clears the group list and selection, clears the
error, raises the loading flag, and sends a `ListLogGroups` request with
the fixed `limit: 50`. -/
def startLoadLogGroups (a : App) (ch : Nat) : App × List WorkerRequest :=
  let profile := a.logsView.profile
  let region := a.logsView.region
  ({ a with
      logsView := { a.logsView with availableGroups := [], selectedGroupIndex := none }
      lastError := none
      isLoadingGroups := true
      groupsRx := some RxState.empty },
   [WorkerRequest.listLogGroups
      (if rustTrim profile = "" then none else some profile)
      (if rustTrim region = "" then none else some region)
      50 ch])

/-- The fetch-result poll of `App::update` (src/app/mod.rs lines 143-162). -/
def pollFetch (a : App) : App :=
  match a.fetchRx with
  | some rx =>
      match rx with
      | RxState.ready (Except.ok entries) =>
          { a with logsView := { a.logsView with entries := entries }
                   isFetching := false
                   fetchRx := none }
      | RxState.ready (Except.error err) =>
          { a with lastError := some (formatAwsLogError err)
                   isFetching := false
                   fetchRx := none }
      | RxState.empty => a
      | RxState.disconnected =>
          { a with isFetching := false, fetchRx := none }
  | none => a

/-- The group-list poll of `App::update` (src/app/mod.rs lines 164-188). -/
def pollGroups (a : App) : App :=
  match a.groupsRx with
  | some rx =>
      match rx with
      | RxState.ready (Except.ok groups) =>
          let lv := { a.logsView with availableGroups := groups }
          let lv :=
            match lv.selectedGroupIndex with
            | some idx =>
                if groups.length ≤ idx then { lv with selectedGroupIndex := none } else lv
            | none => lv
          { a with logsView := lv, groupsRx := none, isLoadingGroups := false }
      | RxState.ready (Except.error err) =>
          { a with lastError := some (formatAwsLogError err)
                   groupsRx := none
                   isLoadingGroups := false }
      | RxState.empty => a
      | RxState.disconnected =>
          { a with groupsRx := none, isLoadingGroups := false }
  | none => a

/-- The tail-mode phase of `App::update` (src/app/mod.rs lines 190-206).
`now` is the current `Instant` in milliseconds; `duration_since(..).as_secs()`
is the truncating `(now - last) / 1000`, saturating at zero like the
monotonic-clock subtraction does. -/
def tailStep (a : App) (now ch : Nat) : App × List WorkerRequest :=
  if a.logsView.tailMode && !a.isFetching then
    let shouldTrigger : Bool :=
      match a.logsView.lastTailInstant with
      | some last => decide (a.logsView.tailIntervalSecs ≤ (now - last) / 1000)
      | none => true
    if shouldTrigger then
      let res := startFetchLogs a (5 * 60 * 1000) ch
      ({ res.1 with logsView := { res.1.logsView with lastTailInstant := some now } }, res.2)
    else (a, [])
  else if !a.logsView.tailMode then
    ({ a with logsView := { a.logsView with lastTailInstant := none } }, [])
  else (a, [])

/-- The state-machine core of one frame of `App::update`
(src/app/mod.rs lines 121-206): poll the fetch channel, poll the group
channel, then run the tail timer. -/
def update (a : App) (now ch : Nat) : App × List WorkerRequest :=
  tailStep (pollGroups (pollFetch a)) now ch

/-! ### src/app/status_bar.rs — the status line

Rust strings are indexed and sliced by UTF-8 bytes, and `&err[..58]`
panics when byte 58 is not a char boundary; messages are therefore
modelled as their UTF-8 byte lists and the panic as a `none` result. -/

/-- UTF-8 encoding of one code point. -/
def utf8Enc (c : Nat) : List Nat :=
  if c < 128 then [c]
  else if c < 2048 then [192 + c / 64, 128 + c % 64]
  else if c < 65536 then [224 + c / 4096, 128 + c / 64 % 64, 128 + c % 64]
  else [240 + c / 262144, 128 + c / 4096 % 64, 128 + c / 64 % 64, 128 + c % 64]

/-- UTF-8 bytes of a string, the representation Rust indexes by. -/
def strBytes (s : String) : List Nat :=
  s.data.flatMap fun c => utf8Enc c.toNat

/-- `str::is_char_boundary` on a byte list: index 0 and the end are
boundaries, and an interior index is one exactly when its byte is not a
UTF-8 continuation byte. -/
def isCharBoundary (bytes : List Nat) (i : Nat) : Bool :=
  if i = 0 then true
  else
    match bytes[i]? with
    | some b => decide (b < 128) || decide (192 ≤ b)
    | none => decide (i = bytes.length)

/-- Byte-level prefix test. -/
def isStartOf : List Nat → List Nat → Bool
  | [], _ => true
  | _ :: _, [] => false
  | a :: restA, b :: restB => a == b && isStartOf restA restB

/-- `str::contains` for a literal pattern, at the byte level. -/
def containsSub (sub : List Nat) : List Nat → Bool
  | [] => sub.isEmpty
  | b :: rest => isStartOf sub (b :: rest) || containsSub sub rest

/-- The status-relevant slice of the application state, as read by
`compute_status` (src/app/status_bar.rs): the `last_info` slot appears in
that snapshot of the component alongside the fields of `App`. -/
structure StatusState where
  isFetching : Bool
  isLoadingGroups : Bool
  lastError : Option (List Nat)
  lastInfo : Option (List Nat)

/-- `compute_status` (src/app/status_bar.rs lines 44-61). A `none` result
models the panic of the byte slice `&err[..58]` when byte 58 of the error
message is not a char boundary; the Bool is the is-error flag. -/
def computeStatus (st : StatusState) : Option (List Nat × Bool) :=
  if st.isFetching then some (strBytes "Fetching logs…", false)
  else if st.isLoadingGroups then some (strBytes "Loading log groups…", false)
  else
    match st.lastError with
    | some err =>
        if 61 < err.length then
          if isCharBoundary err 58 then
            some (strBytes "Error: " ++ err.take 58 ++ strBytes "…", true)
          else none
        else some (strBytes "Error: " ++ err, true)
    | none =>
        match st.lastInfo with
        | some info => some (info, false)
        | none => some (strBytes "Ready", false)

/-- The auth-expiry hint of `draw_status_bar`
(src/app/status_bar.rs lines 21-32): shown exactly when the last error
contains one of the two known authentication-expiry substrings. -/
def authExpiryHint (lastError : Option (List Nat)) : Bool :=
  match lastError with
  | some err =>
      containsSub (strBytes "ExpiredTokenException") err ||
        containsSub (strBytes "The security token included in the request is expired") err
  | none => false

/-- A 64-byte error message whose byte 58 falls inside the two-byte
encoding of a non-ASCII character: 57 times `a`, then `é`, then 5 times
`a`. -/
def panicErrBytes : List Nat :=
  List.replicate 57 97 ++ [195, 169] ++ List.replicate 5 97

/-! ### Concrete application states used as witnesses and counterexamples -/

/-- A state with tail mode on, a valid log group, interval 5 s and a last
trigger at instant 0. -/
def tailApp : App :=
  { appNew with
      logsView := { appNew.logsView with
                      tailMode := true, logGroup := "g", lastTailInstant := some 0 } }

/-- A state with a group-list load already in flight and one group shown. -/
def busyApp : App :=
  { appNew with
      isLoadingGroups := true
      groupsRx := some RxState.empty
      logsView := { appNew.logsView with availableGroups := ["g"] } }

/-- A state holding a stale error while a fetch success sits ready on the
reply channel. -/
def cexApp : App :=
  { appNew with
      lastError := some "boom"
      isFetching := true
      fetchRx := some (RxState.ready (Except.ok [])) }

/-- A state with a fetch in flight (used to witness the fetch guard). -/
def fetchingApp : App :=
  { appNew with isFetching := true, fetchRx := some RxState.empty }

/-- A state with a group-list success ready and a selection that the new
two-element list invalidates. -/
def groupsReadyApp : App :=
  { appNew with
      isLoadingGroups := true
      groupsRx := some (RxState.ready (Except.ok ["a", "b"]))
      logsView := { appNew.logsView with
                      availableGroups := ["x"], selectedGroupIndex := some 5 } }

/-- A state with a fetch failure ready on the reply channel. -/
def fetchErrApp : App :=
  { appNew with
      isFetching := true
      fetchRx := some (RxState.ready (Except.error (AwsLogError.cloudWatch "g" "boom"))) }

/-- A state with a group-list failure ready on the reply channel and a
populated group list and selection. -/
def groupsErrApp : App :=
  { appNew with
      isLoadingGroups := true
      groupsRx := some (RxState.ready (Except.error
        (AwsLogError.listLogGroupsErr "eu-west-1" "boom")))
      logsView := { appNew.logsView with
                      availableGroups := ["x", "y"], selectedGroupIndex := some 1 } }

/-- The coupling invariant of the in-flight flags: `is_fetching` is set
exactly when the fetch receiver is held, and `is_loading_groups` exactly
when the group-list receiver is held. -/
def coupled (a : App) : Prop :=
  (a.isFetching = true ↔ a.fetchRx.isSome = true) ∧
  (a.isLoadingGroups = true ↔ a.groupsRx.isSome = true)

/-! ## Theorems -/

/-- C1: the worker dispatch loop processes enqueued requests strictly one
at a time in arrival order (its reply log over a concatenation of queues
is the concatenation of the reply logs), and for each single request it
invokes the matching service operation with exactly the parameters carried
in the request, sending the resulting value on that request's own reply
channel; when the reply receiver has been dropped the send is ignored and
the loop continues. -/
theorem workerLoop_sequential_dispatch (svc : Service) (alive : Nat → Bool) :
    (∀ reqs1 reqs2 : List WorkerRequest,
        workerLoop svc alive (reqs1 ++ reqs2) =
          workerLoop svc alive reqs1 ++ workerLoop svc alive reqs2) ∧
    (∀ p r g f lb lim ch,
        workerLoop svc alive [WorkerRequest.fetchRecentLogs p r g f lb lim ch] =
          if alive ch then
            [(ch, WorkerReply.fetchResult (svc.fetchRecentLogs p r g f lb lim))]
          else []) ∧
    (∀ p r lim ch,
        workerLoop svc alive [WorkerRequest.listLogGroups p r lim ch] =
          if alive ch then
            [(ch, WorkerReply.groupsResult (svc.listLogGroups p r lim))]
          else []) := by
  refine ⟨?_, ?_, ?_⟩
  · intro reqs1 reqs2
    induction reqs1 with
    | nil => simp [workerLoop]
    | cons req rest ih =>
      cases req with
      | fetchRecentLogs p r g f lb lim ch =>
        by_cases h : alive ch <;> simp [workerLoop, h, ih]
      | listLogGroups p r lim ch =>
        by_cases h : alive ch <;> simp [workerLoop, h, ih]
  · intro p r g f lb lim ch
    by_cases h : alive ch <;> simp [workerLoop, h]
  · intro p r lim ch
    by_cases h : alive ch <;> simp [workerLoop, h]

/-- C5: the start time of `fetch_recent_logs` at time `T` with a given
lookback is `to_millis (T - lookback)`: a nonnegative millisecond count,
saturated at `i64::MAX`, at most `T - lookback` when that difference is
nonnegative, and clamped to 0 when the subtraction underflows the epoch. -/
theorem fetch_start_time_clamped (nowNanos : Int) (lookbackNanos : Nat) :
    fetchStartTimeMillis nowNanos lookbackNanos = toMillis (nowNanos - lookbackNanos) ∧
    0 ≤ fetchStartTimeMillis nowNanos lookbackNanos ∧
    fetchStartTimeMillis nowNanos lookbackNanos ≤ I64MAX ∧
    1000000 * fetchStartTimeMillis nowNanos lookbackNanos ≤
      max (nowNanos - lookbackNanos) 0 := by
  refine ⟨rfl, ?_, ?_, ?_⟩ <;>
    unfold fetchStartTimeMillis toMillis <;>
    by_cases h : 0 ≤ nowNanos - (lookbackNanos : Int)
  · rw [if_pos h]
    exact le_min (Int.natCast_nonneg _) (by norm_num [I64MAX])
  · rw [if_neg h]
  · rw [if_pos h]
    exact min_le_right _ _
  · rw [if_neg h]
    norm_num [I64MAX]
  · rw [if_pos h, max_eq_left h]
    calc 1000000 * min (((nowNanos - lookbackNanos).toNat / 1000000 : Nat) : Int) I64MAX
        ≤ 1000000 * (((nowNanos - lookbackNanos).toNat / 1000000 : Nat) : Int) := by
          have hm := min_le_left (((nowNanos - lookbackNanos).toNat / 1000000 : Nat) : Int) I64MAX
          omega
      _ ≤ ((nowNanos - lookbackNanos).toNat : Int) := by
          have h2 := Nat.div_mul_le_self (nowNanos - lookbackNanos).toNat 1000000
          omega
      _ = nowNanos - lookbackNanos := Int.toNat_of_nonneg h
  · rw [if_neg h]
    simp

/-- C6: `list_log_groups` sends `min limit 50` as the page-size cap for
every positive caller limit (so 500 is dispatched as 50, and the cap never
exceeds 50), and sends no page-size cap at all for a zero or negative
limit. -/
theorem list_log_groups_limit_capped (limit pos : Int) (hpos : 0 < pos) (hneg : limit ≤ 0) :
    listLogGroupsLimitCap 500 = some 50 ∧
    listLogGroupsLimitCap pos = some (min pos 50) ∧
    min pos 50 ≤ 50 ∧
    listLogGroupsLimitCap limit = none := by
  refine ⟨by decide, ?_, min_le_right _ _, ?_⟩
  · simp [listLogGroupsLimitCap, hpos]
  · simp [listLogGroupsLimitCap, not_lt.mpr hneg]

/-- Witness for C6 at `limit = -3` and `pos = 500`. -/
theorem list_log_groups_limit_capped_witness :
    listLogGroupsLimitCap 500 = some 50 ∧
    listLogGroupsLimitCap 500 = some (min 500 50) ∧
    min (500 : Int) 50 ≤ 50 ∧
    listLogGroupsLimitCap (-3) = none :=
  list_log_groups_limit_capped (-3) 500 (by decide) (by decide)

/-- C2 counterexample: the claimed start-guard does not hold for the
list-groups action — in a state with a group-list load already in flight,
`start_load_log_groups` is not a silent no-op: it sends a request and
changes the state. -/
theorem start_load_log_groups_unguarded_cex :
    busyApp.isLoadingGroups = true ∧
    (startLoadLogGroups busyApp 7).2 ≠ [] ∧
    (startLoadLogGroups busyApp 7).1 ≠ busyApp := by
  decide

/-- C2 (amended): each handle lives in a single optional slot, so at most
one of each kind is held, and starting a fetch while the fetch in-flight
flag is set is a silent no-op that sends no request and changes no state;
the list-groups start however has no in-function guard — it always sends
exactly one request and installs a fresh handle (replacing any held one),
with only the UI's disabled button preventing a second in-flight load. -/
theorem fetch_start_guard (a : App) (lb ch chg : Nat) (h : a.isFetching = true) :
    startFetchLogs a lb ch = (a, []) ∧
    (startLoadLogGroups a chg).2.length = 1 ∧
    (startLoadLogGroups a chg).1.groupsRx = some RxState.empty ∧
    (startLoadLogGroups a chg).1.logsView.availableGroups = [] := by
  refine ⟨?_, rfl, rfl, rfl⟩
  simp [startFetchLogs, h]

/-- Witness for C2 (amended) at the concrete in-flight state. -/
theorem fetch_start_guard_witness :
    startFetchLogs fetchingApp 300000 1 = (fetchingApp, []) ∧
    (startLoadLogGroups fetchingApp 2).2.length = 1 ∧
    (startLoadLogGroups fetchingApp 2).1.groupsRx = some RxState.empty ∧
    (startLoadLogGroups fetchingApp 2).1.logsView.availableGroups = [] :=
  fetch_start_guard fetchingApp 300000 1 2 rfl

/-- C7: with no fetch in flight, a fetch from a state whose log-group name
trims to empty records the validation message and sends nothing, leaving
everything else (including the unset in-flight flag) unchanged; from a
state with a nonempty trimmed name, the trimmed name is persisted and is
the log group of the single request sent. -/
theorem fetch_empty_group_validation (a b : App) (lb ch lb2 ch2 : Nat)
    (haIdle : a.isFetching = false) (haEmpty : rustTrim a.logsView.logGroup = "")
    (hbIdle : b.isFetching = false) (hbNonempty : ¬ rustTrim b.logsView.logGroup = "") :
    startFetchLogs a lb ch = ({ a with lastError := some "Please select a log group." }, []) ∧
    (startFetchLogs b lb2 ch2).1.logsView.logGroup = rustTrim b.logsView.logGroup ∧
    (startFetchLogs b lb2 ch2).1.isFetching = true ∧
    (∃ p r f, (startFetchLogs b lb2 ch2).2 =
        [WorkerRequest.fetchRecentLogs p r (rustTrim b.logsView.logGroup) f lb2 1000 ch2]) := by
  refine ⟨?_, ?_, ?_, ?_⟩
  · simp [startFetchLogs, haIdle, haEmpty]
  · simp [startFetchLogs, hbIdle, hbNonempty]
  · simp [startFetchLogs, hbIdle, hbNonempty]
  · refine ⟨if rustTrim b.logsView.profile = "" then none else some b.logsView.profile,
        if rustTrim b.logsView.region = "" then none else some b.logsView.region,
        if rustTrim b.logsView.filterText = "" then none else some b.logsView.filterText, ?_⟩
    simp [startFetchLogs, hbIdle, hbNonempty]

/-- Witness for C7: the default state has an empty log group; `tailApp`
has the nonempty group name `"g"`. -/
theorem fetch_empty_group_validation_witness :
    startFetchLogs appNew 300000 0 =
      ({ appNew with lastError := some "Please select a log group." }, []) :=
  (fetch_empty_group_validation appNew tailApp 300000 0 300000 1 rfl (by decide) rfl
    (by decide)).1

/-- C3: with tail mode on, no fetch in flight and a valid log group, the
tail phase of a frame sends exactly one fetch request with the fixed
5-minute (300000 ms) lookback and records the trigger time, whenever no
trigger has occurred since tail was enabled or the elapsed seconds reach
the interval; a frame whose elapsed time is below the interval triggers
nothing and leaves the state untouched; with interval 5 s an elapsed
5.0 s triggers exactly one fetch and 4.9 s none; a frame with tail mode
off clears the last-trigger marker (so re-enabling fires immediately). -/
theorem tail_triggers_when_due (a b c : App) (now ch nowB chB nowC chC : Nat)
    (hTail : a.logsView.tailMode = true) (hIdle : a.isFetching = false)
    (hGroup : ¬ rustTrim a.logsView.logGroup = "")
    (hDue : a.logsView.lastTailInstant = none ∨
        ∃ last, a.logsView.lastTailInstant = some last ∧
          a.logsView.tailIntervalSecs ≤ (now - last) / 1000)
    (hcTail : c.logsView.tailMode = true) (hcIdle : c.isFetching = false)
    (hcNotDue : ∃ last, c.logsView.lastTailInstant = some last ∧
        (nowC - last) / 1000 < c.logsView.tailIntervalSecs)
    (hbOff : b.logsView.tailMode = false) :
    (∃ p r f, (tailStep a now ch).2 =
        [WorkerRequest.fetchRecentLogs p r (rustTrim a.logsView.logGroup) f 300000 1000 ch]) ∧
    (tailStep a now ch).1.logsView.lastTailInstant = some now ∧
    tailStep c nowC chC = (c, []) ∧
    (tailStep b nowB chB).1.logsView.lastTailInstant = none ∧
    (tailStep b nowB chB).2 = [] ∧
    (tailStep tailApp 5000 10).2.length = 1 ∧
    tailStep tailApp 4900 10 = (tailApp, []) := by
  have hTrig : (tailStep a now ch) =
      ({ (startFetchLogs a 300000 ch).1 with
          logsView := { (startFetchLogs a 300000 ch).1.logsView with
                          lastTailInstant := some now } },
        (startFetchLogs a 300000 ch).2) := by
    rcases hDue with hNone | ⟨last, hLast, hLe⟩
    · simp [tailStep, hTail, hIdle, hNone]
    · simp [tailStep, hTail, hIdle, hLast, hLe]
  refine ⟨?_, ?_, ?_, ?_, ?_, by decide, by decide⟩
  · refine ⟨if rustTrim a.logsView.profile = "" then none else some a.logsView.profile,
        if rustTrim a.logsView.region = "" then none else some a.logsView.region,
        if rustTrim a.logsView.filterText = "" then none else some a.logsView.filterText, ?_⟩
    rw [hTrig]
    simp [startFetchLogs, hIdle, hGroup]
  · rw [hTrig]
  · obtain ⟨last, hLast, hLt⟩ := hcNotDue
    simp [tailStep, hcTail, hcIdle, hLast, Nat.not_le.mpr hLt]
  · simp [tailStep, hbOff]
  · simp [tailStep, hbOff]

/-- Witness for C3 at `tailApp` (interval 5 s, last trigger at 0): due at
5000 ms, not due at 4900 ms, and the default state has tail mode off. -/
theorem tail_triggers_when_due_witness :
    ∃ p r f, (tailStep tailApp 5000 10).2 =
      [WorkerRequest.fetchRecentLogs p r (rustTrim tailApp.logsView.logGroup) f 300000 1000 10] :=
  (tail_triggers_when_due tailApp appNew tailApp 5000 10 0 0 4900 11 rfl rfl (by decide)
    (Or.inr ⟨0, rfl, by decide⟩) rfl rfl ⟨0, rfl, by decide⟩ rfl).1

/-- C4 counterexample: polling a ready fetch success does not clear the
stale-error slot — in `cexApp` a success sits on the channel while a stale
error is recorded, and the error survives the poll. -/
theorem poll_success_keeps_stale_error_cex :
    cexApp.fetchRx = some (RxState.ready (Except.ok [])) ∧
    cexApp.lastError = some "boom" ∧
    (pollFetch cexApp).lastError ≠ none := by
  decide

/-- C4 (amended): a polled fetch success replaces the entry list wholesale
with the returned entries, clears the fetch in-flight flag and drops the
handle; a polled group-list success replaces the available-groups list,
keeps the selected index exactly when it is still below the new length and
clears it otherwise, clears the loading flag and drops the handle; in both
cases the stale-error slot is NOT cleared by the poll (it is cleared only
when a new request starts). -/
theorem poll_success_replaces_state (a b : App) (es : List LogEntry) (gs : List String)
    (ha : a.fetchRx = some (RxState.ready (Except.ok es)))
    (hb : b.groupsRx = some (RxState.ready (Except.ok gs))) :
    pollFetch a = { a with logsView := { a.logsView with entries := es },
                           isFetching := false, fetchRx := none } ∧
    (pollFetch a).lastError = a.lastError ∧
    (pollGroups b).logsView.availableGroups = gs ∧
    (pollGroups b).logsView.selectedGroupIndex =
        b.logsView.selectedGroupIndex.filter (fun idx => decide (idx < gs.length)) ∧
    (pollGroups b).isLoadingGroups = false ∧
    (pollGroups b).groupsRx = none ∧
    (pollGroups b).lastError = b.lastError := by
  refine ⟨by simp [pollFetch, ha], by simp [pollFetch, ha], ?_, ?_, ?_, ?_, ?_⟩
  all_goals rcases hSel : b.logsView.selectedGroupIndex with _ | idx
  case _ => simp [pollGroups, hb, hSel]
  case _ =>
    by_cases hLen : gs.length ≤ idx <;> simp [pollGroups, hb, hSel, hLen]
  case _ => simp [pollGroups, hb, hSel, Option.filter]
  case _ =>
    by_cases hLen : gs.length ≤ idx
    · have hNot : ¬ idx < gs.length := Nat.not_lt.mpr hLen
      simp [pollGroups, hb, hSel, hLen, Option.filter, hNot]
    · have hLt : idx < gs.length := Nat.lt_of_not_le hLen
      simp [pollGroups, hb, hSel, hLen, Option.filter, hLt]
  case _ => simp [pollGroups, hb, hSel]
  case _ =>
    by_cases hLen : gs.length ≤ idx <;> simp [pollGroups, hb, hSel, hLen]
  case _ => simp [pollGroups, hb, hSel]
  case _ =>
    by_cases hLen : gs.length ≤ idx <;> simp [pollGroups, hb, hSel, hLen]
  case _ => simp [pollGroups, hb, hSel]
  case _ =>
    by_cases hLen : gs.length ≤ idx <;> simp [pollGroups, hb, hSel, hLen]

/-- Witness for C4 (amended) at `cexApp` (fetch success ready) and
`groupsReadyApp` (group success ready, selection out of bounds). -/
theorem poll_success_replaces_state_witness :
    pollFetch cexApp =
      { cexApp with
          logsView := { cexApp.logsView with entries := [] },
          isFetching := false, fetchRx := none } :=
  (poll_success_replaces_state cexApp groupsReadyApp [] ["a", "b"] rfl rfl).1

/-- C8: a polled fetch failure records the rendered error message, clears
the fetch in-flight flag and drops the handle; a polled group-list failure
does the same for its flag and handle and leaves the available-groups list
and the selected index unchanged — the list is cleared only when a
list-groups request starts, never by the failure path. -/
theorem poll_failure_records_error (a b : App) (e1 e2 : AwsLogError)
    (ha : a.fetchRx = some (RxState.ready (Except.error e1)))
    (hb : b.groupsRx = some (RxState.ready (Except.error e2))) :
    pollFetch a = { a with lastError := some (formatAwsLogError e1),
                           isFetching := false, fetchRx := none } ∧
    pollGroups b = { b with lastError := some (formatAwsLogError e2),
                            isLoadingGroups := false, groupsRx := none } ∧
    (pollGroups b).logsView.availableGroups = b.logsView.availableGroups ∧
    (pollGroups b).logsView.selectedGroupIndex = b.logsView.selectedGroupIndex ∧
    (∀ v : App, ∀ chg : Nat,
        (startLoadLogGroups v chg).1.logsView.availableGroups = [] ∧
        (startLoadLogGroups v chg).1.logsView.selectedGroupIndex = none) := by
  refine ⟨by simp [pollFetch, ha], by simp [pollGroups, hb], by simp [pollGroups, hb],
    by simp [pollGroups, hb], fun v chg => ⟨rfl, rfl⟩⟩

/-- Witness for C8 at `fetchErrApp` and `groupsErrApp`. -/
theorem poll_failure_records_error_witness :
    pollFetch fetchErrApp =
      { fetchErrApp with
          lastError := some (formatAwsLogError (AwsLogError.cloudWatch "g" "boom")),
          isFetching := false, fetchRx := none } :=
  (poll_failure_records_error fetchErrApp groupsErrApp
    (AwsLogError.cloudWatch "g" "boom")
    (AwsLogError.listLogGroupsErr "eu-west-1" "boom") rfl rfl).1

/-- C9 is a code bug: computing the status line is not total. On the
64-byte error message `panicErrBytes`, whose byte 58 falls inside a
multi-byte character, the truncating byte slice `&err[..58]` panics,
modelled here by the `none` result; short and boundary-aligned messages
behave as claimed, shown on an ASCII example, and the auth-expiry hint
fires exactly on the known substrings. -/
theorem compute_status_panics_on_char_boundary :
    computeStatus { isFetching := false, isLoadingGroups := false,
                    lastError := some panicErrBytes, lastInfo := none } = none ∧
    panicErrBytes.length = 64 ∧
    computeStatus { isFetching := false, isLoadingGroups := false,
                    lastError := some (strBytes "boom"), lastInfo := none } =
      some (strBytes "Error: boom", true) ∧
    computeStatus { isFetching := false, isLoadingGroups := false,
                    lastError := some (List.replicate 70 97), lastInfo := none } =
      some (strBytes "Error: " ++ List.replicate 58 97 ++ strBytes "…", true) ∧
    authExpiryHint (some (strBytes "xxExpiredTokenExceptionyy")) = true ∧
    authExpiryHint (some (strBytes "boom")) = false := by
  decide

/-- The fetch poll preserves the flag/handle coupling. -/
theorem coupled_pollFetch (a : App) (h : coupled a) : coupled (pollFetch a) := by
  obtain ⟨h1, h2⟩ := h
  rcases hrx : a.fetchRx with _ | rx
  · simpa [pollFetch, hrx] using ⟨h1, h2⟩
  · rcases rx with _ | v | _
    · simpa [pollFetch, hrx] using ⟨h1, h2⟩
    · rcases v with e | es <;> exact ⟨by simp [pollFetch, hrx], by simpa [pollFetch, hrx] using h2⟩
    · exact ⟨by simp [pollFetch, hrx], by simpa [pollFetch, hrx] using h2⟩

/-- The group-list poll preserves the flag/handle coupling. -/
theorem coupled_pollGroups (a : App) (h : coupled a) : coupled (pollGroups a) := by
  obtain ⟨h1, h2⟩ := h
  rcases hrx : a.groupsRx with _ | rx
  · simpa [pollGroups, hrx] using ⟨h1, h2⟩
  · rcases rx with _ | v | _
    · simpa [pollGroups, hrx] using ⟨h1, h2⟩
    · rcases v with e | gs
      · exact ⟨by simpa [pollGroups, hrx] using h1, by simp [pollGroups, hrx]⟩
      · exact ⟨by simpa [pollGroups, hrx] using h1, by simp [pollGroups, hrx]⟩
    · exact ⟨by simpa [pollGroups, hrx] using h1, by simp [pollGroups, hrx]⟩

/-- Starting a fetch preserves the flag/handle coupling. -/
theorem coupled_startFetchLogs (a : App) (lb ch : Nat) (h : coupled a) :
    coupled (startFetchLogs a lb ch).1 := by
  obtain ⟨h1, h2⟩ := h
  by_cases hf : a.isFetching
  · simpa [startFetchLogs, hf] using ⟨h1, h2⟩
  · by_cases hg : rustTrim a.logsView.logGroup = ""
    · exact ⟨by simpa [startFetchLogs, hf, hg] using h1,
        by simpa [startFetchLogs, hf, hg] using h2⟩
    · exact ⟨by simp [startFetchLogs, hf, hg],
        by simpa [startFetchLogs, hf, hg] using h2⟩

/-- Starting a group-list load preserves the flag/handle coupling. -/
theorem coupled_startLoadLogGroups (a : App) (ch : Nat) (h : coupled a) :
    coupled (startLoadLogGroups a ch).1 :=
  ⟨by simpa [startLoadLogGroups] using h.1, by simp [startLoadLogGroups]⟩

/-- The tail phase preserves the flag/handle coupling. -/
theorem coupled_tailStep (a : App) (now ch : Nat) (h : coupled a) :
    coupled (tailStep a now ch).1 := by
  by_cases hMode : a.logsView.tailMode
  · by_cases hFetch : a.isFetching
    · simpa [tailStep, hMode, hFetch] using h
    · rcases hLast : a.logsView.lastTailInstant with _ | last
      · have hs := coupled_startFetchLogs a 300000 ch h
        exact ⟨by simpa [tailStep, hMode, hFetch, hLast] using hs.1,
          by simpa [tailStep, hMode, hFetch, hLast] using hs.2⟩
      · by_cases hDue : a.logsView.tailIntervalSecs ≤ (now - last) / 1000
        · have hs := coupled_startFetchLogs a 300000 ch h
          exact ⟨by simpa [tailStep, hMode, hFetch, hLast, hDue] using hs.1,
            by simpa [tailStep, hMode, hFetch, hLast, hDue] using hs.2⟩
        · simpa [tailStep, hMode, hFetch, hLast, hDue] using h
  · exact ⟨by simpa [tailStep, hMode] using h.1, by simpa [tailStep, hMode] using h.2⟩

/-- C10: the coupling of in-flight flags and reply handles — `is_fetching`
set exactly when the fetch handle is held, `is_loading_groups` exactly
when the group-list handle is held — holds at construction and is
preserved by starting a fetch, starting a group-list load, and the
per-frame update. -/
theorem app_flags_track_handles (a : App) (lb ch1 ch2 now ch3 : Nat) (h : coupled a) :
    coupled appNew ∧
    coupled (startFetchLogs a lb ch1).1 ∧
    coupled (startLoadLogGroups a ch2).1 ∧
    coupled (update a now ch3).1 :=
  ⟨by constructor <;> simp [appNew],
    coupled_startFetchLogs a lb ch1 h,
    coupled_startLoadLogGroups a ch2 h,
    coupled_tailStep _ now ch3 (coupled_pollGroups _ (coupled_pollFetch a h))⟩

/-- Witness for C10 at the freshly constructed state. -/
theorem app_flags_track_handles_witness : coupled appNew :=
  (app_flags_track_handles appNew 300000 1 2 3 4
    ⟨by simp [appNew], by simp [appNew]⟩).1

end Lumberjack
